import Mathlib

set_option maxRecDepth 8192

/-!
Verification of the `go-magistr-lesson1` poller against its specification.

The repository holds two variants of the same program:
* `src/main.go` (namespace `MainGo` below);
* `src/unnamed/part_000` (namespace `Part0` below).

Both poll a statistics endpoint, parse a 7-field CSV body and print warning
lines.  We embed the parsing, evaluation and failure-streak logic of both
variants.

Modelling conventions:
* Go `uint64` values are `Nat` with explicit wrap-around (`% 2^64`) where the
  source can overflow; `int`/`int64` reinterpretation uses `toInt64`, and Go's
  truncating `int64` division is `Int.tdiv`.
* A Go `float64` produced by `strconv.ParseFloat` is carried as its exact
  decimal value (structure `Dec`), and the float64 comparisons of the sources
  are embedded exactly: `uint64` to `float64` conversion is round-to-nearest,
  ties to even (`flNat`), and a strict comparison of a correctly rounded
  quantity with a float64 constant is the exact rational comparison with that
  constant's half-ulp cutoff — strict for the even-significand constants
  30.0 and fl(0.80) where the tie rounds down, inclusive for the
  odd-significand fl(0.90) where the tie rounds up (`loadGt30`,
  `floatRatioGt80`, `floatRatioGt90`; each doc comment derives its
  cutoff) — computed over the integers.  Only the numeric payload of the
  `part_000` memory message (`roundPct`, round-half-up of the exact
  percentage) idealises the intermediate float rounding; no claim concerns
  that payload's value.
* `strconv.ParseFloat` is modelled on the plain decimal syntax
  `[+-]digits[.digits][(e|E)[+-]digits]` (no `Inf`/`NaN`/hex forms); a
  well-formed literal that overflows float64 or underflows to zero is
  rejected, as Go's `ErrRange` makes both callers reject the poll.
* `strconv.ParseUint` errors discarded by `src/main.go` leave Go's returned
  value: 0 for a malformed field, `2^64 - 1` for an out-of-range all-digit
  field (`parseUintGoVal`).
* `strings.TrimSpace` is modelled on the ASCII whitespace characters.
* Network and HTTP failures are abstracted to a boolean per-cycle outcome fed
  to the failure-streak loop; a body that reaches the parser is a `String`.
-/

/-- ASCII white-space characters trimmed by `strings.TrimSpace`. -/
def isSpaceGo (c : Char) : Bool :=
  c = ' ' || c = '\t' || c = '\n' || c = '\r' || c = '\x0b' || c = '\x0c'

/-- Model of `strings.TrimSpace`: drop leading and trailing white space. -/
def trimSpaceGo (s : String) : String :=
  ⟨((s.data.dropWhile isSpaceGo).reverse.dropWhile isSpaceGo).reverse⟩

/-- Model of `strings.TrimRight s (String.singleton c)`: drop trailing copies of `c`. -/
def trimRightChar (s : String) (c : Char) : String :=
  ⟨(s.data.reverse.dropWhile (· = c)).reverse⟩

/-- Model of `strings.Contains s (String.singleton c)`. -/
def containsChar (s : String) (c : Char) : Bool :=
  s.data.any (· = c)

/-- Model of `bufio.Reader.ReadString` at newline followed by `part_000`'s use of it: the
body up to (excluding) the first newline. -/
def firstLine (s : String) : String :=
  ⟨s.data.takeWhile (· ≠ '\n')⟩

/-- Model of `strings.Split s ","`. -/
def splitComma (cs : List Char) : List (List Char) :=
  match cs with
  | [] => [[]]
  | c :: rest =>
    let r := splitComma rest
    if c = ',' then [] :: r
    else
      match r with
      | [] => [[c]]
      | h :: t => (c :: h) :: t

/-- Model of `strings.Split s ","` as a list of strings. -/
def splitCommaStr (s : String) : List String :=
  (splitComma s.data).map (fun cs => ⟨cs⟩)

/-- Function `trimTrailingZeros` from both sources: if the text has no `.` it is
returned unchanged, otherwise trailing `0`s and then a trailing `.` are
stripped. -/
def trimTrailingZeros (s : String) : String :=
  if containsChar s '.' then trimRightChar (trimRightChar s '0') '.' else s

/-- Value of a non-empty all-digit string, `none` otherwise. -/
def digitsVal (cs : List Char) : Option Nat :=
  if cs ≠ [] ∧ cs.all Char.isDigit then
    some (cs.foldl (fun a c => a * 10 + (c.toNat - 48)) 0)
  else none

/-- Model of `strconv.ParseUint s 10 64`: digits only (no sign), value below `2^64`. -/
def parseUintGo (s : String) : Option Nat :=
  match digitsVal s.data with
  | none => none
  | some n => if n < 2 ^ 64 then some n else none

/-- The value part of `strconv.ParseUint s 10 64` with the error discarded,
as `src/main.go` uses it for fields 1-6: Go returns 0 with a syntax error
for a malformed string and the cutoff value `2^64 - 1` with a range error
for an all-digit string at or above `2^64`. -/
def parseUintGoVal (s : String) : Nat :=
  match digitsVal s.data with
  | none => 0
  | some n => if n < 2 ^ 64 then n else 2 ^ 64 - 1

/-- Model of `strconv.Atoi`: optional sign, digits, 64-bit signed range. -/
def atoi (s : String) : Option Int :=
  let signed : Bool × List Char :=
    match s.data with
    | '-' :: t => (true, t)
    | '+' :: t => (false, t)
    | cs => (false, cs)
  match digitsVal signed.2 with
  | none => none
  | some n =>
    let v : Int := if signed.1 then -(n : Int) else (n : Int)
    if -(2 ^ 63) ≤ v ∧ v ≤ 2 ^ 63 - 1 then some v else none

/-- The exact decimal value `±mant · 10^(exp - fracLen)` denoted by a float
literal accepted by `strconv.ParseFloat`. -/
structure Dec where
  neg : Bool
  mant : Nat
  fracLen : Nat
  exp : Int
  deriving DecidableEq, Repr

/-- The rational value denoted by a parsed decimal. -/
def Dec.toRat (d : Dec) : ℚ :=
  (if d.neg then -1 else 1) * (d.mant : ℚ) * (10 : ℚ) ^ (d.exp - (d.fracLen : Int))

/-- The exact comparison `value > K / 2^p` of the decimal's value with a
dyadic cutoff, computed over the integers. -/
def Dec.gtScaled (d : Dec) (K p : Nat) : Bool :=
  if d.neg then false
  else
    let t : Int := d.exp - (d.fracLen : Int)
    if 0 ≤ t then K < d.mant * 10 ^ t.toNat * 2 ^ p
    else K * 10 ^ (-t).toNat < d.mant * 2 ^ p

/-- The float64 comparison `loadAvg > 30.0` of both variants: `loadAvg` is
`ParseFloat`'s round-to-nearest-even image of the exact decimal value `v`,
and since 30.0 is a float64 with an even 53-bit significand (ulp `2^-48`),
`fl v > 30` holds exactly when `v > 30 + 2^-49` (the halfway value rounds
down to 30).  The cutoff `(30 * 2^49 + 1) / 2^49` is compared exactly. -/
def loadGt30 (d : Dec) : Bool :=
  d.gtScaled 16888498602639361 49

/-- Exponent part of a `ParseFloat` literal. -/
def parseExp (t : List Char) : Option Int :=
  match t with
  | '-' :: u => (digitsVal u).map (fun n => -(n : Int))
  | '+' :: u => (digitsVal u).map (fun n => (n : Int))
  | u => (digitsVal u).map (fun n => (n : Int))

/-- Overflow side of `strconv.ParseFloat`'s `ErrRange`: a magnitude
`mant * 10^t` at or above `2^1024 - 2^970` (the halfway value between the
largest finite float64 and `2^1024`) rounds to infinity and the parse
fails. -/
def decOverflows (mant : Nat) (t : Int) : Bool :=
  if 0 ≤ t then 2 ^ 1024 - 2 ^ 970 ≤ mant * 10 ^ t.toNat
  else (2 ^ 1024 - 2 ^ 970) * 10 ^ (-t).toNat ≤ mant

/-- Underflow side of `strconv.ParseFloat`'s `ErrRange`: a non-zero magnitude
`mant * 10^t` at or below `2^-1075` (half the smallest subnormal; the tie
rounds to the even significand 0) rounds to zero and the parse fails. -/
def decUnderflows (mant : Nat) (t : Int) : Bool :=
  if mant = 0 then false
  else if 0 ≤ t then mant * 10 ^ t.toNat * 2 ^ 1075 ≤ 1
  else mant * 2 ^ 1075 ≤ 10 ^ (-t).toNat

/-- Model of `strconv.ParseFloat s 64` on the plain decimal fragment,
returning the exact decimal value; a well-formed literal whose value
overflows float64 or underflows to zero is rejected (`ErrRange`, a non-nil
error to both callers). -/
def parseFloatGo (s : String) : Option Dec :=
  let signed : Bool × List Char :=
    match s.data with
    | '-' :: t => (true, t)
    | '+' :: t => (false, t)
    | cs => (false, cs)
  let cs := signed.2
  let intPart := cs.takeWhile Char.isDigit
  let rest := cs.dropWhile Char.isDigit
  let fracRest : List Char × List Char :=
    match rest with
    | '.' :: t => (t.takeWhile Char.isDigit, t.dropWhile Char.isDigit)
    | r => ([], r)
  if intPart = [] ∧ fracRest.1 = [] then none
  else
    let mant := (intPart ++ fracRest.1).foldl (fun a c => a * 10 + (c.toNat - 48)) 0
    let expVal : Option Int :=
      match fracRest.2 with
      | [] => some 0
      | 'e' :: t => parseExp t
      | 'E' :: t => parseExp t
      | _ => none
    match expVal with
    | none => none
    | some e =>
      if decOverflows mant (e - fracRest.1.length) ∨ decUnderflows mant (e - fracRest.1.length)
      then none
      else some { neg := signed.1, mant := mant, fracLen := fracRest.1.length, exp := e }

/-- Function `getenvInt` from both sources: a set, parsable, strictly positive value is
used, anything else falls back to the default.  The environment variable's
value is passed in (`""` when unset, as `os.Getenv` reports). -/
def getenvInt (v : String) (d : Int) : Int :=
  if v ≠ "" then
    match atoi v with
    | some n => if n > 0 then n else d
    | none => d
  else d

/-- The poll interval in milliseconds for a given `POLL_INTERVAL_MS` value. -/
def pollIntervalMs (env : String) : Int :=
  getenvInt env 1000

/-- Reinterpretation of a `uint64` bit pattern as Go's 64-bit `int`. -/
def toInt64 (x : Nat) : Int :=
  if x < 2 ^ 63 then (x : Int) else (x : Int) - 2 ^ 64

/-- Wrapping `uint64` subtraction `a - b` (both arguments below `2^64`). -/
def subU64 (a b : Nat) : Nat :=
  (a + 2 ^ 64 - b) % 2 ^ 64

/-- Wrapping of an `int64` arithmetic result back into the signed range. -/
def wrapInt64 (x : Int) : Int :=
  toInt64 (Int.emod x (2 ^ 64)).toNat

/-- Rounding of a natural number to a multiple of `2^k`, halfway cases to an
even multiple: the last rounding step of a 53-bit significand. -/
def flNatShift (n k : Nat) : Nat :=
  (if 2 ^ k / 2 < n % 2 ^ k ∨ (n % 2 ^ k = 2 ^ k / 2 ∧ n / 2 ^ k % 2 = 1)
   then n / 2 ^ k + 1 else n / 2 ^ k) * 2 ^ k

/-- The exact value of Go's `float64 n` conversion of a `uint64`: values
below `2^53` are exact; a value with `53 + k` bits rounds to a multiple of
`2^k`, to nearest with ties to an even significand. -/
def flNat (n : Nat) : Nat :=
  if n < 2 ^ 53 then n
  else if n < 2 ^ 54 then flNatShift n 1
  else if n < 2 ^ 55 then flNatShift n 2
  else if n < 2 ^ 56 then flNatShift n 3
  else if n < 2 ^ 57 then flNatShift n 4
  else if n < 2 ^ 58 then flNatShift n 5
  else if n < 2 ^ 59 then flNatShift n 6
  else if n < 2 ^ 60 then flNatShift n 7
  else if n < 2 ^ 61 then flNatShift n 8
  else if n < 2 ^ 62 then flNatShift n 9
  else if n < 2 ^ 63 then flNatShift n 10
  else if n < 2 ^ 64 then flNatShift n 11
  else n

/-- The float64 test `float64 used / float64 total > 0.80` of `part_000`'s
memory check: the constant 0.80 parses to the float64
`C = 7205759403792794 / 2^53` whose significand is even, so for the exact
quotient `x = flNat used / flNat total` the correctly rounded comparison
`fl x > C` holds exactly when `x` exceeds the halfway value
`C + 2^-54 = 14411518807585589 / 2^54` (the tie rounds down to `C`); the
cutoff is compared by cross-multiplication over the integers. -/
def floatRatioGt80 (used total : Nat) : Bool :=
  14411518807585589 * flNat total < flNat used * 2 ^ 54

/-- The float64 test `float64 used / float64 total > 0.90` of `part_000`'s
disk and network checks: 0.90 parses to the float64
`C = 8106479329266893 / 2^53` whose significand is odd, so `fl x > C` holds
exactly when `x` is at or above the halfway value
`C + 2^-54 = 16212958658533787 / 2^54` (the tie rounds up past `C`). -/
def floatRatioGt90 (used total : Nat) : Bool :=
  16212958658533787 * flNat total ≤ flNat used * 2 ^ 54

/-- Model of `int (math.Round (float64 used / float64 total * 100))` of `part_000`:
round-half-up of `used*100/total`, computed over the naturals (the ratio is
non-negative, where `math.Round` is round-half-up). -/
def roundPct (used total : Nat) : Nat :=
  (used * 100 * 2 + total) / (total * 2)

/-- A fully parsed statistics snapshot (7 CSV fields), together with the
original text of field 0 as each variant passes it to the load-average
message. -/
structure Stats where
  loadStr : String
  loadAvg : Dec
  totalRAM : Nat
  usedRAM : Nat
  totalDisk : Nat
  usedDisk : Nat
  netCap : Nat
  netUsed : Nat
  deriving DecidableEq, Repr

/-- One warning emitted by an evaluator, with its computed payload. -/
inductive Warning where
  | load (text : String)
  | mem (percent : Int)
  | disk (freeMb : Int)
  | net (freeMbit : Int)
  deriving DecidableEq, Repr

/-- The metric a warning is about. -/
inductive Metric where
  | load
  | mem
  | disk
  | net
  deriving DecidableEq, Repr

/-- The metric of a warning. -/
def tag : Warning → Metric
  | .load _ => .load
  | .mem _ => .mem
  | .disk _ => .disk
  | .net _ => .net

/-- Go formatting `%d` of a signed integer. -/
def intStr (i : Int) : String :=
  if i < 0 then "-" ++ Nat.repr i.natAbs else Nat.repr i.natAbs

/-- The exact line printed for a warning (`fmt.Printf` format strings of the
sources, identical in both variants). -/
def render : Warning → String
  | .load t => "Load Average is too high: " ++ t
  | .mem p => "Memory usage too high: " ++ intStr p ++ "%"
  | .disk f => "Free disk space is too low: " ++ intStr f ++ " Mb left"
  | .net f => "Network bandwidth usage high: " ++ intStr f ++ " Mbit/s available"

namespace MainGo

/-- Threshold checks of `src/main.go` `pollOnce` (lines 101–132): integer
percentage `used*100/total` (wrapping `uint64` multiply, truncating divide,
`int` conversion) strictly compared with 80/90/90; the load average compared
with 30.0. -/
def checks (s : Stats) : List Warning :=
  (if loadGt30 s.loadAvg then [Warning.load (trimTrailingZeros s.loadStr)] else []) ++
  (if 0 < s.totalRAM then
    if 80 < toInt64 (s.usedRAM * 100 % 2 ^ 64 / s.totalRAM) then
      [Warning.mem (toInt64 (s.usedRAM * 100 % 2 ^ 64 / s.totalRAM))]
    else []
  else []) ++
  (if 0 < s.totalDisk then
    if 90 < toInt64 (s.usedDisk * 100 % 2 ^ 64 / s.totalDisk) then
      [Warning.disk ((subU64 s.totalDisk s.usedDisk / (1024 * 1024) : Nat) : Int)]
    else []
  else []) ++
  (if 0 < s.netCap then
    if 90 < toInt64 (s.netUsed * 100 % 2 ^ 64 / s.netCap) then
      [Warning.net (toInt64 (subU64 s.netCap s.netUsed / 1000000))]
    else []
  else [])

/-- The body handling of `src/main.go` `pollOnce` (lines 78–99): trim the
whole body, reject an empty line, split on `,`, reject a field count other
than 7, parse field 0 as a float (rejecting failure and range errors), and
take fields 1–6 as the values `ParseUint` returns with its error silently
discarded: 0 on a malformed field, `2^64 - 1` on an out-of-range one. -/
def parse (body : String) : Option Stats :=
  let line := trimSpaceGo body
  if line = "" then none
  else
    let fields := splitCommaStr line
    if fields.length = 7 then
      match parseFloatGo (trimSpaceGo (fields.getD 0 "")) with
      | none => none
      | some la =>
        some
          { loadStr := fields.getD 0 ""
            loadAvg := la
            totalRAM := parseUintGoVal (trimSpaceGo (fields.getD 1 ""))
            usedRAM := parseUintGoVal (trimSpaceGo (fields.getD 2 ""))
            totalDisk := parseUintGoVal (trimSpaceGo (fields.getD 3 ""))
            usedDisk := parseUintGoVal (trimSpaceGo (fields.getD 4 ""))
            netCap := parseUintGoVal (trimSpaceGo (fields.getD 5 ""))
            netUsed := parseUintGoVal (trimSpaceGo (fields.getD 6 "")) }
    else none

/-- One `pollOnce` of `src/main.go` on a fetched body: `none` is a failed
cycle (non-nil error), `some lines` a successful cycle with its printed
warning lines. -/
def poll (body : String) : Option (List String) :=
  (parse body).map (fun s => (checks s).map render)

/-- One iteration of the `src/main.go` `main` loop on the poll outcome
(`true` = success): updates `(consecutiveErrors, errorPrinted)` and reports
whether `Unable to fetch server statistic.` was printed this iteration. -/
def step : Nat × Bool → Bool → (Nat × Bool) × Bool
  | (n, p), false =>
    if 3 ≤ n + 1 ∧ p = false then ((n + 1, true), true) else ((n + 1, p), false)
  | _, true => ((0, false), false)

end MainGo

namespace Part0

/-- Threshold checks of `src/unnamed/part_000` `pollOnce` (lines 133–169):
the float64 ratio `float64 used / float64 total` strictly compared with the
float64 constants 0.80/0.90/0.90 (embedded exactly by `floatRatioGt80` and
`floatRatioGt90`), the load average compared with 30.0 (`loadGt30`);
payloads are the rounded percentage, the free mebibytes (`int64` truncating
division) and the free mebibits (`*8` then `int64` division by `2^20`). -/
def checks (s : Stats) : List Warning :=
  (if loadGt30 s.loadAvg then [Warning.load (trimTrailingZeros s.loadStr)] else []) ++
  (if 0 < s.totalRAM then
    if floatRatioGt80 s.usedRAM s.totalRAM then
      [Warning.mem (roundPct s.usedRAM s.totalRAM : Int)]
    else []
  else []) ++
  (if 0 < s.totalDisk then
    if floatRatioGt90 s.usedDisk s.totalDisk then
      [Warning.disk (Int.tdiv (toInt64 (subU64 s.totalDisk s.usedDisk)) (1024 * 1024))]
    else []
  else []) ++
  (if 0 < s.netCap then
    if floatRatioGt90 s.netUsed s.netCap then
      [Warning.net (Int.tdiv (wrapInt64 (toInt64 (subU64 s.netCap s.netUsed) * 8)) (1024 * 1024))]
    else []
  else [])

/-- The body handling of `src/unnamed/part_000` `pollOnce` (lines 79–131):
read the first line, trim it, reject an empty line, split on `,` trimming
each field, reject a field count other than 7, and parse field 0 as a float
and fields 1–6 as `uint64`s, any parse failure rejecting the poll. -/
def parse (body : String) : Option Stats :=
  let line := trimSpaceGo (firstLine body)
  if line = "" then none
  else
    let fields := (splitCommaStr line).map trimSpaceGo
    if fields.length = 7 then
      match parseFloatGo (fields.getD 0 ""), parseUintGo (trimSpaceGo (fields.getD 1 "")),
        parseUintGo (trimSpaceGo (fields.getD 2 "")), parseUintGo (trimSpaceGo (fields.getD 3 "")),
        parseUintGo (trimSpaceGo (fields.getD 4 "")), parseUintGo (trimSpaceGo (fields.getD 5 "")),
        parseUintGo (trimSpaceGo (fields.getD 6 "")) with
      | some la, some a, some b, some c, some d, some e, some f =>
        some
          { loadStr := fields.getD 0 ""
            loadAvg := la
            totalRAM := a
            usedRAM := b
            totalDisk := c
            usedDisk := d
            netCap := e
            netUsed := f }
      | _, _, _, _, _, _, _ => none
    else none

/-- One `pollOnce` of `src/unnamed/part_000` on a fetched body. -/
def poll (body : String) : Option (List String) :=
  (parse body).map (fun s => (checks s).map render)

/-- One iteration of the `src/unnamed/part_000` `main` loop on the poll
outcome: as in `src/main.go`, except that a success resets only the counter
and leaves `errorMessagePrinted` unchanged. -/
def step : Nat × Bool → Bool → (Nat × Bool) × Bool
  | (n, p), false =>
    if 3 ≤ n + 1 ∧ p = false then ((n + 1, true), true) else ((n + 1, p), false)
  | (_, p), true => ((0, p), false)

end Part0

/-- Run a failure-streak loop over a list of per-cycle outcomes (`true` =
successful poll), counting how many iterations print the
`Unable to fetch server statistic.` notice. -/
def runLoop (step : Nat × Bool → Bool → (Nat × Bool) × Bool) :
    Nat × Bool → List Bool → Nat
  | _, [] => 0
  | st, ok :: rest =>
    (if (step st ok).2 then 1 else 0) + runLoop step (step st ok).1 rest

/-- Modelled from the spec: the list of metrics whose usage ratio strictly
exceeds its threshold (load average 30.0, memory 0.80, disk 0.90, network
0.90), in the fixed order load, memory, disk, network; a metric whose
denominator is zero has no ratio and is skipped. -/
def ratioTags (s : Stats) : List Metric :=
  (if (30 : ℚ) < s.loadAvg.toRat then [Metric.load] else []) ++
  (if 0 < s.totalRAM ∧ (80 / 100 : ℚ) < (s.usedRAM : ℚ) / (s.totalRAM : ℚ) then
    [Metric.mem] else []) ++
  (if 0 < s.totalDisk ∧ (90 / 100 : ℚ) < (s.usedDisk : ℚ) / (s.totalDisk : ℚ) then
    [Metric.disk] else []) ++
  (if 0 < s.netCap ∧ (90 / 100 : ℚ) < (s.netUsed : ℚ) / (s.netCap : ℚ) then
    [Metric.net] else [])

/-- The warning criterion of the amended claim C1: the metrics whose
float64-computed usage test succeeds, stated as exact rational cutoff
comparisons (load: decimal value beyond `30 + 2^-49`; memory: quotient of
the converted values beyond the half-ulp cutoff of fl(0.80); disk and
network: at or beyond the half-ulp cutoff of fl(0.90)), in the fixed order
load, memory, disk, network; a metric with zero denominator is skipped. -/
def floatTags (s : Stats) : List Metric :=
  (if (30 : ℚ) + 1 / 2 ^ 49 < s.loadAvg.toRat then [Metric.load] else []) ++
  (if 0 < s.totalRAM ∧
      (14411518807585589 / 2 ^ 54 : ℚ) < (flNat s.usedRAM : ℚ) / (flNat s.totalRAM : ℚ) then
    [Metric.mem] else []) ++
  (if 0 < s.totalDisk ∧
      (16212958658533787 / 2 ^ 54 : ℚ) ≤ (flNat s.usedDisk : ℚ) / (flNat s.totalDisk : ℚ) then
    [Metric.disk] else []) ++
  (if 0 < s.netCap ∧
      (16212958658533787 / 2 ^ 54 : ℚ) ≤ (flNat s.netUsed : ℚ) / (flNat s.netCap : ℚ) then
    [Metric.net] else [])

/-- Correctness of `Dec.gtScaled`: it computes the exact comparison of the
decimal's value with the dyadic cutoff `K / 2^p`. -/
theorem Dec.gtScaled_iff (d : Dec) (K p : Nat) :
    d.gtScaled K p = true ↔ (K : ℚ) / 2 ^ p < d.toRat := by
  have h2p : (0 : ℚ) < (2 : ℚ) ^ p := by positivity
  rcases d with ⟨neg, m, f, e⟩
  cases neg
  case false =>
    unfold Dec.gtScaled Dec.toRat
    norm_num
    rw [div_lt_iff h2p]
    by_cases hfe : (f : ℤ) ≤ e
    · rw [if_pos hfe]
      have h10 : (10 : ℚ) ^ (e - (f : ℤ)) = ((10 ^ (e.toNat - f) : ℕ) : ℚ) := by
        rw [Nat.cast_pow, ← zpow_natCast]
        congr 1
        omega
      rw [h10, show ((2 : ℚ) ^ p) = ((2 ^ p : ℕ) : ℚ) by push_cast; ring,
        ← Nat.cast_mul, ← Nat.cast_mul, Nat.cast_lt]
    · rw [if_neg hfe]
      have h10 : (10 : ℚ) ^ (e - (f : ℤ)) = (((10 ^ ((f : ℤ) - e).toNat : ℕ) : ℚ))⁻¹ := by
        rw [Nat.cast_pow, ← zpow_natCast, ← zpow_neg]
        congr 1
        omega
      have hpos : (0 : ℚ) < ((10 ^ ((f : ℤ) - e).toNat : ℕ) : ℚ) := by positivity
      rw [h10,
        show ((m : ℚ)) * (((10 ^ ((f : ℤ) - e).toNat : ℕ) : ℚ))⁻¹ * 2 ^ p =
          ((m * 2 ^ p : ℕ) : ℚ) / ((10 ^ ((f : ℤ) - e).toNat : ℕ) : ℚ) by push_cast; ring,
        lt_div_iff hpos, ← Nat.cast_mul, Nat.cast_lt]
  case true =>
    unfold Dec.gtScaled Dec.toRat
    norm_num
    have hm : (0 : ℚ) ≤ (m : ℚ) * (10 : ℚ) ^ (e - (f : ℤ)) := by positivity
    have hn : (0 : ℚ) ≤ (K : ℚ) / 2 ^ p := by positivity
    linarith

/-- Correctness of `loadGt30`: the embedded load test holds exactly when the
decimal value exceeds `30 + 2^-49`. -/
theorem loadGt30_iff (d : Dec) :
    loadGt30 d = true ↔ (30 : ℚ) + 1 / 2 ^ 49 < d.toRat := by
  have h := Dec.gtScaled_iff d 16888498602639361 49
  rw [show ((16888498602639361 : ℕ) : ℚ) / 2 ^ 49 = (30 : ℚ) + 1 / 2 ^ 49 by norm_num] at h
  exact h

/-- Cross-multiplication form of a strict rational comparison of two
non-negative fractions. -/
theorem crossMul_lt_iff (a b N D : Nat) (hb : 0 < b) (hD : 0 < D) :
    N * b < a * D ↔ ((N : ℚ) / D) < (a : ℚ) / b := by
  rw [div_lt_div_iff (by exact_mod_cast hD) (by exact_mod_cast hb),
    show ((N : ℚ)) * (b : ℚ) = ((N * b : ℕ) : ℚ) by push_cast; ring,
    show ((a : ℚ)) * (D : ℚ) = ((a * D : ℕ) : ℚ) by push_cast; ring, Nat.cast_lt]

/-- Cross-multiplication form of a non-strict rational comparison of two
non-negative fractions. -/
theorem crossMul_le_iff (a b N D : Nat) (hb : 0 < b) (hD : 0 < D) :
    N * b ≤ a * D ↔ ((N : ℚ) / D) ≤ (a : ℚ) / b := by
  rw [div_le_div_iff (by exact_mod_cast hD) (by exact_mod_cast hb),
    show ((N : ℚ)) * (b : ℚ) = ((N * b : ℕ) : ℚ) by push_cast; ring,
    show ((a : ℚ)) * (D : ℚ) = ((a * D : ℕ) : ℚ) by push_cast; ring, Nat.cast_le]

/-- The last rounding step maps a value of at least `2^k` to a positive
multiple of `2^k`. -/
theorem flNatShift_pos (n k : Nat) (h : 2 ^ k ≤ n) : 0 < flNatShift n k := by
  unfold flNatShift
  have h2 : 0 < 2 ^ k := pow_pos (by norm_num) k
  have hq : 1 ≤ n / 2 ^ k := (Nat.one_le_div_iff h2).2 h
  split <;> exact Nat.mul_pos (by omega) h2

/-- The float64 image of a positive `uint64` is positive. -/
theorem flNat_pos (n : Nat) (hn : 0 < n) : 0 < flNat n := by
  unfold flNat
  by_cases h1 : n < 2 ^ 53
  · rw [if_pos h1]
    omega
  rw [if_neg h1]
  by_cases hb1 : n < 2 ^ 54
  · rw [if_pos hb1]
    exact flNatShift_pos n 1 (by omega)
  rw [if_neg hb1]
  by_cases hb2 : n < 2 ^ 55
  · rw [if_pos hb2]
    exact flNatShift_pos n 2 (by omega)
  rw [if_neg hb2]
  by_cases hb3 : n < 2 ^ 56
  · rw [if_pos hb3]
    exact flNatShift_pos n 3 (by omega)
  rw [if_neg hb3]
  by_cases hb4 : n < 2 ^ 57
  · rw [if_pos hb4]
    exact flNatShift_pos n 4 (by omega)
  rw [if_neg hb4]
  by_cases hb5 : n < 2 ^ 58
  · rw [if_pos hb5]
    exact flNatShift_pos n 5 (by omega)
  rw [if_neg hb5]
  by_cases hb6 : n < 2 ^ 59
  · rw [if_pos hb6]
    exact flNatShift_pos n 6 (by omega)
  rw [if_neg hb6]
  by_cases hb7 : n < 2 ^ 60
  · rw [if_pos hb7]
    exact flNatShift_pos n 7 (by omega)
  rw [if_neg hb7]
  by_cases hb8 : n < 2 ^ 61
  · rw [if_pos hb8]
    exact flNatShift_pos n 8 (by omega)
  rw [if_neg hb8]
  by_cases hb9 : n < 2 ^ 62
  · rw [if_pos hb9]
    exact flNatShift_pos n 9 (by omega)
  rw [if_neg hb9]
  by_cases hb10 : n < 2 ^ 63
  · rw [if_pos hb10]
    exact flNatShift_pos n 10 (by omega)
  rw [if_neg hb10]
  by_cases hb11 : n < 2 ^ 64
  · rw [if_pos hb11]
    exact flNatShift_pos n 11 (by omega)
  rw [if_neg hb11]
  omega

/-- Correctness of `floatRatioGt80` as a rational cutoff comparison of the
converted values. -/
theorem floatRatioGt80_iff (u t : Nat) (ht : 0 < t) :
    floatRatioGt80 u t = true ↔
      (14411518807585589 / 2 ^ 54 : ℚ) < (flNat u : ℚ) / (flNat t : ℚ) := by
  unfold floatRatioGt80
  rw [decide_eq_true_eq,
    crossMul_lt_iff (flNat u) (flNat t) 14411518807585589 (2 ^ 54) (flNat_pos t ht)
      (by norm_num)]
  norm_num

/-- Correctness of `floatRatioGt90` as a rational cutoff comparison of the
converted values. -/
theorem floatRatioGt90_iff (u t : Nat) (ht : 0 < t) :
    floatRatioGt90 u t = true ↔
      (16212958658533787 / 2 ^ 54 : ℚ) ≤ (flNat u : ℚ) / (flNat t : ℚ) := by
  unfold floatRatioGt90
  rw [decide_eq_true_eq,
    crossMul_le_iff (flNat u) (flNat t) 16212958658533787 (2 ^ 54) (flNat_pos t ht)
      (by norm_num)]
  norm_num

example : loadGt30 ⟨false, 305, 1, 0⟩ = true := by decide
example : loadGt30 ⟨false, 30, 0, 0⟩ = false := by decide
example : flNat 16000000000000001 = 16000000000000000 := by decide
example : flNat 20000000000000000 = 20000000000000000 := by decide
example : parseFloatGo "1e999" = none := by decide
example : parseFloatGo "1e-999" = none := by decide
example : parseUintGoVal "abc" = 0 := by decide
example : parseUintGoVal "18446744073709551616" = 18446744073709551615 := by decide
example : trimTrailingZeros "30.00" = "30" := by decide
example : trimSpaceGo " a b " = "a b" := by decide
example : splitCommaStr "a,,b" = ["a", "", "b"] := by decide
example : getenvInt "500" 1000 = 500 := by decide
example : getenvInt "0" 1000 = 1000 := by decide

/-- A failed cycle with the notice already printed: counter grows, no print. -/
theorem mainStep_fail_printed (n : Nat) :
    MainGo.step (n, true) false = ((n + 1, true), false) := by
  simp [MainGo.step]

/-- A failed cycle below the streak threshold: counter grows, no print. -/
theorem mainStep_fail_small (n : Nat) (h : ¬3 ≤ n + 1) :
    MainGo.step (n, false) false = ((n + 1, false), false) := by
  simp [MainGo.step, h]

/-- The failed cycle that brings an unprinted streak to 3 or more: print. -/
theorem mainStep_fail_third (n : Nat) (h : 3 ≤ n + 1) :
    MainGo.step (n, false) false = ((n + 1, true), true) := by
  simp [MainGo.step, h]

/-- In `part_000`, a failed cycle with the notice already printed. -/
theorem part0Step_fail_printed (n : Nat) :
    Part0.step (n, true) false = ((n + 1, true), false) := by
  simp [Part0.step]

/-- In `part_000`, a failed cycle below the streak threshold. -/
theorem part0Step_fail_small (n : Nat) (h : ¬3 ≤ n + 1) :
    Part0.step (n, false) false = ((n + 1, false), false) := by
  simp [Part0.step, h]

/-- In `part_000`, a failed cycle reaching an unprinted streak of 3 or more. -/
theorem part0Step_fail_third (n : Nat) (h : 3 ≤ n + 1) :
    Part0.step (n, false) false = ((n + 1, true), true) := by
  simp [Part0.step, h]

/-- Unfolding one iteration of the polling loop. -/
theorem runLoop_cons (step : Nat × Bool → Bool → (Nat × Bool) × Bool) (st : Nat × Bool)
    (ok : Bool) (rest : List Bool) :
    runLoop step st (ok :: rest) =
      (if (step st ok).2 then 1 else 0) + runLoop step (step st ok).1 rest := rfl

/-- In `src/main.go`, once the notice has been printed, continued failures
print nothing further. -/
theorem mainStep_printed_run (k : Nat) :
    ∀ n, runLoop MainGo.step (n, true) (List.replicate k false) = 0 := by
  induction k with
  | zero => intro n; rfl
  | succ k ih =>
    intro n
    rw [List.replicate_succ, runLoop_cons, mainStep_fail_printed]
    simpa using ih (n + 1)

/-- In `part_000`, once the notice has been printed, no later cycle of any
kind prints it again. -/
theorem part0_printed_run (tr : List Bool) :
    ∀ st : Nat × Bool, st.2 = true → runLoop Part0.step st tr = 0 := by
  induction tr with
  | nil => intro st _; rfl
  | cons ok rest ih =>
    rintro ⟨n, p⟩ h
    dsimp only at h
    subst h
    cases ok
    · rw [runLoop_cons, part0Step_fail_printed]
      simpa using ih _ rfl
    · rw [runLoop_cons, show Part0.step (n, true) true = ((0, true), false) from rfl]
      simpa using ih _ rfl

/-- In `part_000`, any run prints the notice at most once (0 times if the
flag is already set). -/
theorem part0_run_le_one (tr : List Bool) :
    ∀ st : Nat × Bool, runLoop Part0.step st tr ≤ if st.2 then 0 else 1 := by
  induction tr with
  | nil =>
    intro st
    show 0 ≤ _
    split <;> norm_num
  | cons ok rest ih =>
    rintro ⟨n, p⟩
    cases p
    · cases ok
      · by_cases h3 : 3 ≤ n + 1
        · rw [runLoop_cons, part0Step_fail_third n h3]
          have h0 := part0_printed_run rest (n + 1, true) rfl
          simp [h0]
        · rw [runLoop_cons, part0Step_fail_small n h3]
          simpa using ih (n + 1, false)
      · rw [runLoop_cons, show Part0.step (n, false) true = ((0, false), false) from rfl]
        simpa using ih (0, false)
    · have h0 := part0_printed_run (ok :: rest) (n, true) rfl
      simp [h0]

/-- The parser of `src/main.go` rejects any body whose comma-split field count is not 7. -/
theorem main_parse_len_ne7 (body : String)
    (h : (splitCommaStr (trimSpaceGo body)).length ≠ 7) :
    MainGo.parse body = none := by
  unfold MainGo.parse
  by_cases hline : trimSpaceGo body = ""
  · rw [if_pos hline]
  · rw [if_neg hline, if_neg h]

/-- The parser of `part_000` rejects any body whose comma-split field count is not 7. -/
theorem part0_parse_len_ne7 (body : String)
    (h : (splitCommaStr (trimSpaceGo (firstLine body))).length ≠ 7) :
    Part0.parse body = none := by
  unfold Part0.parse
  by_cases hline : trimSpaceGo (firstLine body) = ""
  · rw [if_pos hline]
  · rw [if_neg hline, if_neg (by simpa using h)]

/-- Membership in a guarded singleton chunk forces the element. -/
theorem mem_if_singleton {c : Prop} [Decidable c] {w x : Warning}
    (h : w ∈ (if c then [x] else [])) : w = x := by
  split at h
  · simpa using h
  · simp at h

/-- Membership in a doubly guarded chunk forces the element and the outer
guard. -/
theorem mem_checks_chunk {c d : Prop} [Decidable c] [Decidable d] {w x : Warning}
    (h : w ∈ (if c then (if d then [x] else []) else [])) : w = x ∧ c := by
  split at h
  · exact ⟨mem_if_singleton h, by assumption⟩
  · simp at h

/-- Any warning emitted by `src/main.go` comes from one of the four chunks,
with the chunk denominator guard satisfied. -/
theorem mainChecks_elim (s : Stats) (w : Warning) (hw : w ∈ MainGo.checks s) :
    w = Warning.load (trimTrailingZeros s.loadStr) ∨
    (0 < s.totalRAM ∧ ∃ p, w = Warning.mem p) ∨
    (0 < s.totalDisk ∧ ∃ f, w = Warning.disk f) ∨
    (0 < s.netCap ∧ ∃ f, w = Warning.net f) := by
  unfold MainGo.checks at hw
  rcases List.mem_append.1 hw with h123 | h4
  · rcases List.mem_append.1 h123 with h12 | h3
    · rcases List.mem_append.1 h12 with h1 | h2
      · exact Or.inl (mem_if_singleton h1)
      · rcases mem_checks_chunk h2 with ⟨hw2, hc⟩
        exact Or.inr (Or.inl ⟨hc, _, hw2⟩)
    · rcases mem_checks_chunk h3 with ⟨hw3, hc⟩
      exact Or.inr (Or.inr (Or.inl ⟨hc, _, hw3⟩))
  · rcases mem_checks_chunk h4 with ⟨hw4, hc⟩
    exact Or.inr (Or.inr (Or.inr ⟨hc, _, hw4⟩))

/-- Any warning emitted by `part_000` comes from one of the four chunks,
with the chunk denominator guard satisfied. -/
theorem part0Checks_elim (s : Stats) (w : Warning) (hw : w ∈ Part0.checks s) :
    w = Warning.load (trimTrailingZeros s.loadStr) ∨
    (0 < s.totalRAM ∧ ∃ p, w = Warning.mem p) ∨
    (0 < s.totalDisk ∧ ∃ f, w = Warning.disk f) ∨
    (0 < s.netCap ∧ ∃ f, w = Warning.net f) := by
  unfold Part0.checks at hw
  rcases List.mem_append.1 hw with h123 | h4
  · rcases List.mem_append.1 h123 with h12 | h3
    · rcases List.mem_append.1 h12 with h1 | h2
      · exact Or.inl (mem_if_singleton h1)
      · rcases mem_checks_chunk h2 with ⟨hw2, hc⟩
        exact Or.inr (Or.inl ⟨hc, _, hw2⟩)
    · rcases mem_checks_chunk h3 with ⟨hw3, hc⟩
      exact Or.inr (Or.inr (Or.inl ⟨hc, _, hw3⟩))
  · rcases mem_checks_chunk h4 with ⟨hw4, hc⟩
    exact Or.inr (Or.inr (Or.inr ⟨hc, _, hw4⟩))

/-- C4: in both variants, a zero denominator (total memory, total disk or
network capacity) suppresses that metric's warning entirely, regardless of
the numerator. -/
theorem zero_denominator_skips_check (s : Stats) :
    (s.totalRAM = 0 →
      Metric.mem ∉ (MainGo.checks s).map tag ∧ Metric.mem ∉ (Part0.checks s).map tag) ∧
    (s.totalDisk = 0 →
      Metric.disk ∉ (MainGo.checks s).map tag ∧ Metric.disk ∉ (Part0.checks s).map tag) ∧
    (s.netCap = 0 →
      Metric.net ∉ (MainGo.checks s).map tag ∧ Metric.net ∉ (Part0.checks s).map tag) := by
  refine ⟨fun h => ⟨?_, ?_⟩, fun h => ⟨?_, ?_⟩, fun h => ⟨?_, ?_⟩⟩ <;>
  · intro hmem
    rcases List.mem_map.1 hmem with ⟨w, hw, htw⟩
    first
      | have helim := mainChecks_elim s w hw
      | have helim := part0Checks_elim s w hw
    rcases helim with h1 | ⟨hc, p, h2⟩ | ⟨hc, f, h3⟩ | ⟨hc, f, h4⟩ <;>
      subst_vars <;> simp_all [tag]

/-- C6: in both variants, the load-average warning always carries the
original text of field 0 with trailing zeros and a trailing point stripped,
and the CSV field `31` produces exactly `Load Average is too high: 31`. -/
theorem c6_load_text :
    (∀ s w, w ∈ MainGo.checks s → tag w = Metric.load →
      w = Warning.load (trimTrailingZeros s.loadStr)) ∧
    (∀ s w, w ∈ Part0.checks s → tag w = Metric.load →
      w = Warning.load (trimTrailingZeros s.loadStr)) ∧
    MainGo.poll "31,100,1,100,1,100,1" = some ["Load Average is too high: 31"] ∧
    Part0.poll "31,100,1,100,1,100,1" = some ["Load Average is too high: 31"] := by
  refine ⟨fun s w hw htw => ?_, fun s w hw htw => ?_, by decide, by decide⟩ <;>
  · first
      | have helim := mainChecks_elim s w hw
      | have helim := part0Checks_elim s w hw
    rcases helim with h1 | ⟨hc, p, h2⟩ | ⟨hc, f, h3⟩ | ⟨hc, f, h4⟩ <;>
      subst_vars <;> simp_all [tag]

/-- C1 (amended): for every snapshot, the `part_000` evaluator emits
warnings exactly for the metrics whose float64-computed usage test
succeeds — the load test holding iff the decimal value exceeds
`30 + 2^-49`, the memory/disk/network tests iff the exact quotient of the
converted values is beyond the half-ulp cutoff of the float64 threshold
constant — in the fixed order load, memory, disk, network; neither
evaluator fires exactly on exact-ratio exceedance (see the
counterexample). -/
theorem part0_warnings_float_semantics (s : Stats) :
    (Part0.checks s).map tag = floatTags s := by
  unfold Part0.checks floatTags
  rw [List.map_append, List.map_append, List.map_append]
  have hload : ((if loadGt30 s.loadAvg then [Warning.load (trimTrailingZeros s.loadStr)]
      else []).map tag) =
      if (30 : ℚ) + 1 / 2 ^ 49 < s.loadAvg.toRat then [Metric.load] else [] := by
    cases h : loadGt30 s.loadAvg
    · rw [if_neg (by simp [h]), if_neg (by rw [← loadGt30_iff, h]; simp)]
      rfl
    · rw [if_pos (by simp [h]), if_pos ((loadGt30_iff s.loadAvg).1 h)]
      rfl
  have hmem : ((if 0 < s.totalRAM then
        if floatRatioGt80 s.usedRAM s.totalRAM then
          [Warning.mem (roundPct s.usedRAM s.totalRAM : Int)] else []
      else []).map tag) =
      if 0 < s.totalRAM ∧
          (14411518807585589 / 2 ^ 54 : ℚ) <
            (flNat s.usedRAM : ℚ) / (flNat s.totalRAM : ℚ) then
        [Metric.mem] else [] := by
    by_cases h : 0 < s.totalRAM
    · cases hr : floatRatioGt80 s.usedRAM s.totalRAM
      · rw [if_pos h, if_neg (by simp [hr]), if_neg (by
          rintro ⟨-, hlt⟩
          rw [← floatRatioGt80_iff _ _ h, hr] at hlt
          exact Bool.false_ne_true hlt)]
        rfl
      · rw [if_pos h, if_pos (by simp [hr]), if_pos ⟨h, (floatRatioGt80_iff _ _ h).1 hr⟩]
        rfl
    · rw [if_neg h, if_neg (by tauto)]
      rfl
  have hdisk : ((if 0 < s.totalDisk then
        if floatRatioGt90 s.usedDisk s.totalDisk then
          [Warning.disk (Int.tdiv (toInt64 (subU64 s.totalDisk s.usedDisk)) (1024 * 1024))]
        else []
      else []).map tag) =
      if 0 < s.totalDisk ∧
          (16212958658533787 / 2 ^ 54 : ℚ) ≤
            (flNat s.usedDisk : ℚ) / (flNat s.totalDisk : ℚ) then
        [Metric.disk] else [] := by
    by_cases h : 0 < s.totalDisk
    · cases hr : floatRatioGt90 s.usedDisk s.totalDisk
      · rw [if_pos h, if_neg (by simp [hr]), if_neg (by
          rintro ⟨-, hlt⟩
          rw [← floatRatioGt90_iff _ _ h, hr] at hlt
          exact Bool.false_ne_true hlt)]
        rfl
      · rw [if_pos h, if_pos (by simp [hr]), if_pos ⟨h, (floatRatioGt90_iff _ _ h).1 hr⟩]
        rfl
    · rw [if_neg h, if_neg (by tauto)]
      rfl
  have hnet : ((if 0 < s.netCap then
        if floatRatioGt90 s.netUsed s.netCap then
          [Warning.net (Int.tdiv (wrapInt64 (toInt64 (subU64 s.netCap s.netUsed) * 8))
            (1024 * 1024))]
        else []
      else []).map tag) =
      if 0 < s.netCap ∧
          (16212958658533787 / 2 ^ 54 : ℚ) ≤
            (flNat s.netUsed : ℚ) / (flNat s.netCap : ℚ) then
        [Metric.net] else [] := by
    by_cases h : 0 < s.netCap
    · cases hr : floatRatioGt90 s.netUsed s.netCap
      · rw [if_pos h, if_neg (by simp [hr]), if_neg (by
          rintro ⟨-, hlt⟩
          rw [← floatRatioGt90_iff _ _ h, hr] at hlt
          exact Bool.false_ne_true hlt)]
        rfl
      · rw [if_pos h, if_pos (by simp [hr]), if_pos ⟨h, (floatRatioGt90_iff _ _ h).1 hr⟩]
        rfl
    · rw [if_neg h, if_neg (by tauto)]
      rfl
  rw [hload, hmem, hdisk, hnet]

/-- C1 witness: the amended claim evaluated on a concrete snapshot. -/
theorem part0_warnings_float_semantics_witness :
    (Part0.checks ⟨"31", ⟨false, 31, 0, 0⟩, 100, 1, 100, 1, 100, 1⟩).map tag =
      floatTags ⟨"31", ⟨false, 31, 0, 0⟩, 100, 1, 100, 1, 100, 1⟩ :=
  part0_warnings_float_semantics ⟨"31", ⟨false, 31, 0, 0⟩, 100, 1, 100, 1, 100, 1⟩

/-- C1 counterexample: two fully parsed snapshots on which an evaluator's
warnings are not the exact-ratio exceedances.  `src/main.go` on body
`0,1000,805,1,0,1,0`: memory ratio 0.805 strictly exceeds 0.80 but the
truncated percent `805*100/1000 = 80` is not `> 80` and nothing is printed.
`part_000` on body `0,20000000000000000,16000000000000001,1,0,1,0`: the
exact ratio 0.80000000000000005 strictly exceeds 0.80, but the fields
convert to the float64s 16000000000000000 and 20000000000000000 whose
float64 quotient is exactly the threshold constant fl(0.80), so the strict
comparison fails and nothing is printed. -/
theorem exact_ratio_exceedance_counterexample :
    MainGo.parse "0,1000,805,1,0,1,0" =
      some ⟨"0", ⟨false, 0, 0, 0⟩, 1000, 805, 1, 0, 1, 0⟩ ∧
    (MainGo.checks ⟨"0", ⟨false, 0, 0, 0⟩, 1000, 805, 1, 0, 1, 0⟩).map tag = [] ∧
    ratioTags ⟨"0", ⟨false, 0, 0, 0⟩, 1000, 805, 1, 0, 1, 0⟩ = [Metric.mem] ∧
    Part0.parse "0,20000000000000000,16000000000000001,1,0,1,0" =
      some ⟨"0", ⟨false, 0, 0, 0⟩, 20000000000000000, 16000000000000001, 1, 0, 1, 0⟩ ∧
    (Part0.checks
      ⟨"0", ⟨false, 0, 0, 0⟩, 20000000000000000, 16000000000000001, 1, 0, 1, 0⟩).map tag
      = [] ∧
    ratioTags ⟨"0", ⟨false, 0, 0, 0⟩, 20000000000000000, 16000000000000001, 1, 0, 1, 0⟩ =
      [Metric.mem] := by
  have hrA : ratioTags ⟨"0", ⟨false, 0, 0, 0⟩, 1000, 805, 1, 0, 1, 0⟩ = [Metric.mem] := by
    unfold ratioTags Dec.toRat
    norm_num
  have hrB : ratioTags
      ⟨"0", ⟨false, 0, 0, 0⟩, 20000000000000000, 16000000000000001, 1, 0, 1, 0⟩ =
      [Metric.mem] := by
    unfold ratioTags Dec.toRat
    norm_num
  exact ⟨by decide, by decide, hrA, by decide, by decide, hrB⟩

/-- C2 (amended): in the `src/main.go` loop, starting healthy, a streak of
`k` consecutive failures prints the notice exactly once as soon as `k`
reaches 3 and never again within the streak; a success resets both the
counter and the printed flag, so a later streak of 3 alerts again (the
concrete trace fail,fail,fail,success,fail,fail,fail prints twice). -/
theorem maingo_failure_streak_alerts :
    (∀ k, runLoop MainGo.step (0, false) (List.replicate k false) = if 3 ≤ k then 1 else 0) ∧
    (∀ st, MainGo.step st true = ((0, false), false)) ∧
    runLoop MainGo.step (0, false) [false, false, false, true, false, false, false] = 2 := by
  refine ⟨?_, ?_, by decide⟩
  · intro k
    match k with
    | 0 => decide
    | 1 => decide
    | 2 => decide
    | (n + 3) =>
      rw [show List.replicate (n + 3) false = false :: false :: false :: List.replicate n false
          by simp [List.replicate],
        runLoop_cons, mainStep_fail_small 0 (by omega), runLoop_cons,
        mainStep_fail_small 1 (by omega), runLoop_cons, mainStep_fail_third 2 (by omega),
        mainStep_printed_run n 3]
      simp
  · rintro ⟨n, p⟩
    rfl

/-- C2 witness: the streak formula evaluated at a 4-failure streak. -/
theorem maingo_failure_streak_alerts_witness :
    runLoop MainGo.step (0, false) (List.replicate 4 false) = if 3 ≤ 4 then 1 else 0 :=
  maingo_failure_streak_alerts.1 4

/-- C2 counterexample: in the `part_000` loop the trace
fail,fail,fail,success,fail,fail,fail prints the notice once, not the twice
the claim requires, because a success never clears the printed flag. -/
theorem part0_no_realert_counterexample :
    runLoop Part0.step (0, false) [false, false, false, true, false, false, false] ≠ 2 ∧
    runLoop Part0.step (0, false) [false, false, false, true, false, false, false] = 1 := by
  decide

/-- C9: in `part_000`, once the notice has been printed it is never printed
again (any run from a printed state prints 0 notices, any run from the start
prints at most 1), and a success resets the counter but leaves the printed
flag unchanged. -/
theorem part0_notice_never_reprinted :
    (∀ tr st, (st : Nat × Bool).2 = true → runLoop Part0.step st tr = 0) ∧
    (∀ tr, runLoop Part0.step (0, false) tr ≤ 1) ∧
    (∀ n p, Part0.step (n, p) true = ((0, p), false)) := by
  refine ⟨fun tr st h => part0_printed_run tr st h, fun tr => ?_, fun n p => rfl⟩
  simpa using part0_run_le_one tr (0, false)

/-- C9 witness: a failure after the notice was printed prints nothing. -/
theorem part0_notice_never_reprinted_witness :
    runLoop Part0.step (5, true) [false, false, false] = 0 :=
  part0_notice_never_reprinted.1 [false, false, false] (5, true) rfl

/-- C5: in both variants a trimmed body whose comma-split field count is not
7 is rejected (no snapshot, no threshold evaluation), and a failed cycle
increments the streak counter. -/
theorem field_count_mismatch_rejected :
    (∀ body, (splitCommaStr (trimSpaceGo body)).length ≠ 7 →
      MainGo.parse body = none ∧ MainGo.poll body = none) ∧
    (∀ body, (splitCommaStr (trimSpaceGo (firstLine body))).length ≠ 7 →
      Part0.parse body = none ∧ Part0.poll body = none) ∧
    (∀ n p, (MainGo.step (n, p) false).1.1 = n + 1 ∧ (Part0.step (n, p) false).1.1 = n + 1) ∧
    MainGo.poll "1,2,3,4,5,6" = none ∧ Part0.poll "1,2,3,4,5,6,7,8" = none := by
  refine ⟨fun body h => ?_, fun body h => ?_, fun n p => ⟨?_, ?_⟩, by decide, by decide⟩
  · have hp := main_parse_len_ne7 body h
    exact ⟨hp, by unfold MainGo.poll; rw [hp]; rfl⟩
  · have hp := part0_parse_len_ne7 body h
    exact ⟨hp, by unfold Part0.poll; rw [hp]; rfl⟩
  · cases p
    · by_cases h3 : 3 ≤ n + 1
      · rw [mainStep_fail_third n h3]
      · rw [mainStep_fail_small n h3]
    · rw [mainStep_fail_printed n]
  · cases p
    · by_cases h3 : 3 ≤ n + 1
      · rw [part0Step_fail_third n h3]
      · rw [part0Step_fail_small n h3]
    · rw [part0Step_fail_printed n]

/-- C5 witness: a 3-field body is rejected. -/
theorem field_count_mismatch_rejected_witness :
    (splitCommaStr (trimSpaceGo "1,2,3")).length ≠ 7 ∧ MainGo.parse "1,2,3" = none :=
  ⟨by decide, (field_count_mismatch_rejected.1 "1,2,3" (by decide)).1⟩

/-- C7: `trimTrailingZeros` maps `30.00` to `30`, `30.50` to `30.5`, and
leaves any string without a decimal point unchanged. -/
theorem trimTrailingZeros_spec :
    trimTrailingZeros "30.00" = "30" ∧ trimTrailingZeros "30.50" = "30.5" ∧
    ∀ s, containsChar s '.' = false → trimTrailingZeros s = s := by
  refine ⟨by decide, by decide, fun s h => ?_⟩
  simp [trimTrailingZeros, h]

/-- C7 witness: the no-decimal-point case at `45`. -/
theorem trimTrailingZeros_spec_witness :
    containsChar "45" '.' = false ∧ trimTrailingZeros "45" = "45" :=
  ⟨by decide, trimTrailingZeros_spec.2.2 "45" (by decide)⟩

/-- C8: `POLL_INTERVAL_MS` handling: a parsable strictly positive value is
the poll interval in milliseconds; a non-positive or unparsable value falls
back to the 1000 ms default (`500` gives 500, `0` and `abc` give 1000). -/
theorem poll_interval_env :
    (∀ s n, atoi s = some n → 0 < n → pollIntervalMs s = n) ∧
    (∀ s n, atoi s = some n → n ≤ 0 → pollIntervalMs s = 1000) ∧
    (∀ s, atoi s = none → pollIntervalMs s = 1000) ∧
    pollIntervalMs "500" = 500 ∧ pollIntervalMs "0" = 1000 ∧ pollIntervalMs "abc" = 1000 := by
  refine ⟨fun s n h hpos => ?_, fun s n h hle => ?_, fun s h => ?_, by decide, by decide,
    by decide⟩
  · have hne : s ≠ "" := by rintro rfl; simp [atoi, digitsVal] at h
    unfold pollIntervalMs getenvInt
    rw [if_pos hne, h]
    simp [hpos]
  · have hne : s ≠ "" := by rintro rfl; simp [atoi, digitsVal] at h
    unfold pollIntervalMs getenvInt
    rw [if_pos hne, h]
    simp only []
    rw [if_neg (by omega)]
  · by_cases hne : s = ""
    · subst hne
      rfl
    · unfold pollIntervalMs getenvInt
      rw [if_pos hne, h]

/-- C8 witness: the positive case at `500`. -/
theorem poll_interval_env_witness :
    atoi "500" = some 500 ∧ (0 : Int) < 500 ∧ pollIntervalMs "500" = 500 :=
  ⟨by decide, by decide, poll_interval_env.1 "500" 500 (by decide) (by decide)⟩

/-- C4 witness: zero total memory suppresses the memory warning on a
concrete snapshot. -/
theorem zero_denominator_skips_check_witness :
    Metric.mem ∉ (MainGo.checks ⟨"0", ⟨false, 0, 0, 0⟩, 0, 5, 0, 5, 0, 5⟩).map tag ∧
    Metric.mem ∉ (Part0.checks ⟨"0", ⟨false, 0, 0, 0⟩, 0, 5, 0, 5, 0, 5⟩).map tag :=
  (zero_denominator_skips_check ⟨"0", ⟨false, 0, 0, 0⟩, 0, 5, 0, 5, 0, 5⟩).1 rfl

/-- C6 witness: the load warning membership case on a concrete snapshot. -/
theorem c6_load_text_witness :
    Warning.load "31" = Warning.load (trimTrailingZeros
      (⟨"31", ⟨false, 31, 0, 0⟩, 100, 1, 100, 1, 100, 1⟩ : Stats).loadStr) :=
  c6_load_text.1 ⟨"31", ⟨false, 31, 0, 0⟩, 100, 1, 100, 1, 100, 1⟩ (Warning.load "31")
    (by decide) (by decide)
